import Mathlib

/-!
Shallow embedding of the document-search chatbot pipeline
(`streamlit_app.py`, `utils/llm_utils.py`, `utils/search_utils.py`).

Python values that flow through backend records are modelled by `PyVal`
(strings, numbers as exact rationals, and `None`); Python exceptions by
`PyExn`; user-visible Streamlit notices (`st.warning` / `st.error`) and
backend invocations by an `Event` log that each embedded function returns
alongside its value.  Fallible code returns `Except PyExn`.
-/

/-- A Python value as it appears in backend search records and formatted
passages: a string, a number (modelled as an exact rational), or `None`. -/
inductive PyVal : Type
  | str (s : String)
  | num (q : ℚ)
  | none
deriving DecidableEq, Repr

/-- A Python exception, as raised by the embedded code: `TypeError` (bad call
or bad operand type), `KeyError` (missing mapping key), `ValueError`, and an
opaque exception raised inside a backend call. -/
inductive PyExn : Type
  | typeError (msg : String)
  | keyError (key : String)
  | valueError (msg : String)
  | backendError (msg : String)
deriving DecidableEq, Repr

/-- `str(e)` for an exception, as interpolated into f-string messages. -/
def PyExn.toMessage : PyExn → String
  | .typeError m => m
  | .keyError k => "\x27" ++ k ++ "\x27"
  | .valueError m => m
  | .backendError m => m

/-- One chat message: `{"role": ..., "content": ...}`. -/
structure Turn : Type where
  role : String
  content : String
deriving DecidableEq, Repr

/-- One entry of the cached service-metadata catalog built by
`load_service_metadata`: `{"name": ..., "search_column": ...}`, where the
search column is `None` when the `DESC` query returned no rows. -/
structure ServiceMeta : Type where
  name : String
  search_column : Option String
deriving DecidableEq, Repr

/-- Sampling options passed to the completion backend
(`CompleteOptions({"temperature": ..., "max_tokens": ...})`). -/
structure CompleteOptions : Type where
  temperature : ℚ
  max_tokens : Nat
deriving DecidableEq, Repr

/-- The filter predicate tree sent to the search backend
(`{"@and": [...]}`, `{"@gte": {field: v}}`, `{"@lte": {field: v}}`). -/
inductive SearchFilter : Type
  | and (xs : List SearchFilter)
  | gte (field : String) (v : ℚ)
  | lte (field : String) (v : ℚ)

/-- The request handed to `svc.search(...)`. -/
structure SearchRequest : Type where
  query : String
  columns : List String
  filter : SearchFilter
  limit : Nat
  group_by_field : Option String

/-- A raw backend search record: a mapping from column name to value. -/
abbrev SearchRecord : Type := List (String × PyVal)

/-- The backend response: `resp.results`. -/
structure SearchResponse : Type where
  results : List SearchRecord

/-- The search backend (`svc.search`), an external collaborator modelled as a
pure function from request to response-or-exception. -/
def SearchFn : Type := SearchRequest → Except PyExn SearchResponse

/-- The completion backend (`snowflake.cortex.Complete`), an external
collaborator modelled as a pure function of model name, prompt and options. -/
def CompleteFn : Type := String → String → CompleteOptions → Except PyExn String

/-- Observable effects of one embedded call: Streamlit notices and backend
invocations, in program order. -/
inductive Event : Type
  | warn (msg : String)
  | err (msg : String)
  | completeCall (model : String) (prompt : String) (options : CompleteOptions)
  | searchCall (req : SearchRequest)

/-- `rec[key]` on a Python dict: the first binding for `key`, else `KeyError`. -/
def pyGet (rec : SearchRecord) (key : String) : Except PyExn PyVal :=
  match rec.find? (fun kv => kv.1 == key) with
  | some kv => .ok kv.2
  | Option.none => .error (.keyError key)

/-- Python `lst[-n:]`: the last `n` elements — except that `lst[-0:]` is the
whole list, because `-0 == 0` in Python. -/
def pySliceLast (l : List Turn) (n : Nat) : List Turn :=
  if n = 0 then l else l.drop (l.length - n)

/-- Python truthiness of an optional session-state flag (`None` and `False`
are falsy). -/
def pyTruthy : Option Bool → Bool
  | some b => b
  | Option.none => false

/-- Python truthiness of a `search_column` entry (`None` and `""` are falsy),
as tested by `not metadata[idx]["search_column"]`. -/
def pyFalsyStrOpt : Option String → Bool
  | some s => s.isEmpty
  | Option.none => true

/-- The decimal digit characters, for rendering numbers. -/
def digitChar : Nat → Char
  | 0 => '0' | 1 => '1' | 2 => '2' | 3 => '3' | 4 => '4'
  | 5 => '5' | 6 => '6' | 7 => '7' | 8 => '8' | _ => '9'

/-- The decimal digits of `n`, least significant first. -/
def natDigitsRev (n : Nat) : List Char :=
  if h : n < 10 then [digitChar n]
  else digitChar (n % 10) :: natDigitsRev (n / 10)
  decreasing_by exact Nat.div_lt_self (by omega) (by omega)

/-- Thousands grouping as Python's `,` format specifier performs it, on a
least-significant-first digit list: a comma after every run of three digits. -/
def groupRev (ds : List Char) : List Char :=
  if ds.length ≤ 3 then ds
  else ds.take 3 ++ ',' :: groupRev (ds.drop 3)
  termination_by ds.length
  decreasing_by simp [List.length_drop]; omega

/-- Round to the nearest integer, ties to even — the rounding Python's
fixed-point float formatting applies. -/
def roundHalfEven (q : ℚ) : ℤ :=
  let f := ⌊q⌋
  let r := q - f
  if r < 1/2 then f
  else if 1/2 < r then f + 1
  else if f % 2 = 0 then f else f + 1

/-- `f"{x:,.2f}"`: sign, thousands-grouped integer part, and exactly two
decimal digits (value rounded to cents, ties to even). -/
def formatComma2 (x : ℚ) : String :=
  let sign := if x < 0 then "-" else ""
  let cents : Nat := (roundHalfEven (|x| * 100)).toNat
  let intStr := String.mk (groupRev (natDigitsRev (cents / 100))).reverse
  let fracStr := String.mk [digitChar (cents % 100 / 10), digitChar (cents % 10)]
  sign ++ intStr ++ "." ++ fracStr

/-- `digitsToNat` reads a list of digit characters, most significant first. -/
def digitsToNat (ds : List Char) : Nat :=
  ds.foldl (fun a c => a * 10 + (c.toNat - 48)) 0

/-- Python `str.strip()`: remove leading and trailing whitespace. -/
def pyStrip (s : String) : String :=
  String.mk ((s.data.dropWhile Char.isWhitespace).reverse.dropWhile Char.isWhitespace).reverse

/-- A Python float as `float()` can produce it: a finite value (modelled as an
exact rational), a signed infinity, or NaN. -/
inductive PyFloat : Type
  | finite (q : ℚ)
  | inf (neg : Bool)
  | nan
deriving DecidableEq, Repr

/-- One Python digitpart (`digit (["_"] digit)*`): a nonempty digit run with
single underscores strictly between digits.  Returns the digits with the
underscores removed when the segment is valid. -/
def pyDigitPart : List Char → Option (List Char)
  | [] => Option.none
  | [c] => if c.isDigit then some [c] else Option.none
  | c :: '_' :: rest =>
      if c.isDigit then (pyDigitPart rest).map (fun ds => c :: ds) else Option.none
  | c :: c2 :: rest =>
      if c.isDigit then (pyDigitPart (c2 :: rest)).map (fun ds => c :: ds)
      else Option.none

/-- Split a character list at the first separator matching `p`: the part
before it and, when one was found, the part after it. -/
def breakAtFirst (p : Char → Bool) : List Char → List Char × Option (List Char)
  | [] => ([], Option.none)
  | c :: cs =>
    if p c then ([], some cs)
    else
      let r := breakAtFirst p cs
      (c :: r.1, r.2)

/-- The value of a Python float number literal body — integer part, optional
fraction, optional exponent, underscore separators allowed inside digit runs —
as an exact numerator/denominator pair.  `Option.none` when the body is not a
valid number literal. -/
def pyNumberValue (l : List Char) : Option (Nat × Nat) :=
  let em := breakAtFirst (fun c => c == 'e' || c == 'E') l
  let mz := breakAtFirst (fun c => c == '.') em.1
  let ip := mz.1
  let fp := mz.2.getD []
  let ipd : Option (List Char) := if ip.isEmpty then some [] else pyDigitPart ip
  let fpd : Option (List Char) := if fp.isEmpty then some [] else pyDigitPart fp
  match ipd, fpd with
  | some iD, some fD =>
    if iD.isEmpty && fD.isEmpty then Option.none
    else
      let num := digitsToNat (iD ++ fD)
      let den := 10 ^ fD.length
      match em.2 with
      | Option.none => some (num, den)
      | some ex =>
        let se : Bool × List Char :=
          match ex with
          | '-' :: cs => (true, cs)
          | '+' :: cs => (false, cs)
          | cs => (false, cs)
        match pyDigitPart se.2 with
        | some eD =>
            if se.1 then some (num, den * 10 ^ digitsToNat eD)
            else some (num * 10 ^ digitsToNat eD, den)
        | Option.none => Option.none
  | _, _ => Option.none

/-- The body of a Python float conversion after the sign: the special literals
`inf`, `infinity` and `nan` (case-insensitive), or a number literal.  A number
whose magnitude reaches `2 ^ 1024` overflows to an infinity as the conversion
to a binary double does (the round-to-even sliver just below that bound is
outside the model). -/
def pyFloatBody (neg : Bool) (l : List Char) : Option PyFloat :=
  let low := l.map Char.toLower
  if low == "inf".data || low == "infinity".data then some (.inf neg)
  else if low == "nan".data then some .nan
  else
    match pyNumberValue l with
    | some nd =>
        if 2 ^ 1024 * nd.2 ≤ nd.1 then some (.inf neg)
        else some (.finite (if neg then -mkRat nd.1 nd.2 else mkRat nd.1 nd.2))
    | Option.none => Option.none

/-- Python `float(s)` on a string: strip surrounding whitespace, read an
optional sign, then a special literal or a decimal number (optional fraction,
optional exponent, underscore digit separators).  Finite values are exact
rationals — the rounding to the nearest binary double is outside the model,
except for overflow to infinity.  `Option.none` stands for the `ValueError`
the call raises on anything else. -/
def parseFloat (s : String) : Option PyFloat :=
  match (pyStrip s).data with
  | '-' :: cs => pyFloatBody true cs
  | '+' :: cs => pyFloatBody false cs
  | cs => pyFloatBody false cs

/-- Python `float(val)`: a number passes through as finite, a string is parsed
(`ValueError` on failure), `None` raises `TypeError`.  `Option.none` stands
for either exception, both caught by the caller below. -/
def pyFloat : PyVal → Option PyFloat
  | .num q => some (.finite q)
  | .str s => parseFloat s
  | .none => Option.none

/-- Multiplication by the (finite) `multiplier`, as in
`float(val) * multiplier`: an infinity keeps or flips its sign with the
multiplier's sign and becomes NaN against zero; NaN absorbs everything. -/
def PyFloat.mulRat : PyFloat → ℚ → PyFloat
  | .finite q, m => .finite (q * m)
  | .inf neg, m => if m = 0 then .nan else if m < 0 then .inf !neg else .inf neg
  | .nan, _ => .nan

/-- `f"{x:,.2f}"` over the full float domain: finite values via
`formatComma2`; infinities print `inf`/`-inf` and NaN prints `nan`, with no
decimal part. -/
def formatFloatComma2 : PyFloat → String
  | .finite q => formatComma2 q
  | .inf neg => if neg then "-inf" else "inf"
  | .nan => "nan"

/-- `_fmt_currency` (`utils/search_utils.py`): format a raw value as a
currency string `f"${amount:,.2f}"`; on `ValueError`/`TypeError` from
`float(val)` return the value unchanged. -/
def _fmt_currency (val : PyVal) (multiplier : ℚ := 1) : PyVal :=
  match pyFloat val with
  | some x => .str ("$" ++ formatFloatComma2 (x.mulRat multiplier))
  | Option.none => val

/-- A normalized passage: the dict built by the gateway's result comprehension. -/
abbrev Passage : Type := List (String × PyVal)

/-- The projection, filter, limit and grouping key of the one retrieval call
`svc.search(...)` issues in `query_cortex_search_service`. -/
def buildSearchRequest (query search_col : String) (limit : Nat)
    (min_total_gross max_total_gross : ℚ) : SearchRequest :=
  { query := query
    columns := [search_col, "FILE_NAME", "SELLER_NAME_VALUE", "CLIENT_NAME_VALUE",
                "TOTAL_GROSS_WORTH_VALUE", "ISSUE_DATE_VALUE"]
    filter := .and [.gte "TOTAL_GROSS_WORTH_VALUE" min_total_gross,
                    .lte "TOTAL_GROSS_WORTH_VALUE" max_total_gross]
    limit := limit
    group_by_field := some "FILE_NAME" }

/-- The gateway's result comprehension, for one raw record: copy the designated
fields into the passage's named attributes (a missing dict key raises
`KeyError`), formatting the currency field with `_fmt_currency`. -/
def formatRec (search_col : String) (rec : SearchRecord) : Except PyExn Passage := do
  let file ← pyGet rec "FILE_NAME"
  let chunk ← pyGet rec search_col
  let seller ← pyGet rec "SELLER_NAME_VALUE"
  let client ← pyGet rec "CLIENT_NAME_VALUE"
  let total_gross ← pyGet rec "TOTAL_GROSS_WORTH_VALUE"
  let issue_date ← pyGet rec "ISSUE_DATE_VALUE"
  .ok [("file", file), ("chunk", chunk), ("seller", seller), ("client", client),
       ("total_gross", _fmt_currency total_gross), ("issue_date", issue_date)]

/-- `query_cortex_search_service` (`utils/search_utils.py`): resolve the
service in the metadata catalog, issue one search call, and format results.
Returns the value (or exception) together with the emitted events. -/
def query_cortex_search_service (search : SearchFn) (query service : String)
    (limit : Nat) (metadata : List ServiceMeta)
    (min_total_gross max_total_gross : ℚ) :
    Except PyExn (List Passage) × List Event :=
  if service.isEmpty then
    (.ok [], [.warn "Please select a search service."])
  else
    match metadata.find? (fun m => m.name == service) with
    | Option.none =>
        (.ok [], [.err ("Invalid service metadata for \x27" ++ service ++ "\x27.")])
    | some m =>
        if pyFalsyStrOpt m.search_column then
          (.ok [], [.err ("Invalid service metadata for \x27" ++ service ++ "\x27.")])
        else
          let search_col := m.search_column.getD ""
          let req := buildSearchRequest query search_col limit min_total_gross max_total_gross
          match search req with
          | .error e => (.ok [], [.searchCall req, .err ("Search failed: " ++ e.toMessage)])
          | .ok resp => (resp.results.mapM (formatRec search_col), [.searchCall req])

/-- The bindings a call site supplies for `query_cortex_search_service`: the
two range bounds are `Option.none` when the call does not pass them. -/
structure SearchCallArgs : Type where
  query : String
  service : String
  limit : Nat
  metadata : List ServiceMeta
  min_total_gross : Option ℚ := Option.none
  max_total_gross : Option ℚ := Option.none

/-- Python call semantics for `query_cortex_search_service`: every parameter
of the `def` lacks a default, so a call that omits `min_total_gross` or
`max_total_gross` raises `TypeError` before the function body runs. -/
def callQueryCortexSearchService (search : SearchFn) (args : SearchCallArgs) :
    Except PyExn (List Passage) × List Event :=
  match args.min_total_gross, args.max_total_gross with
  | some mn, some mx =>
      query_cortex_search_service search args.query args.service args.limit args.metadata mn mx
  | _, _ =>
      (.error (.typeError ("query_cortex_search_service() missing 2 required positional arguments: " ++
        "\x27min_total_gross\x27 and \x27max_total_gross\x27")), [])

/-- One character of JSON string escaping, as `json.dumps` performs it on the
characters this model produces. -/
def jsonEscapeChar (c : Char) : String :=
  if c = '\\' then "\\\\"
  else if c = '"' then "\\\""
  else if c = '\n' then "\\n"
  else if c = '\t' then "\\t"
  else String.singleton c

/-- A JSON string literal. -/
def jsonStr (s : String) : String :=
  "\"" ++ String.join (s.data.map jsonEscapeChar) ++ "\""

/-- Decimal digits of a fraction in `[0, 1)`, most significant first, to a
bounded depth (enough for every value this model produces). -/
def fracDigits : Nat → ℚ → List Char
  | 0, _ => []
  | fuel + 1, q =>
      if q = 0 then []
      else
        let d := (⌊q * 10⌋).toNat
        digitChar d :: fracDigits fuel (q * 10 - (d : ℚ))

/-- A JSON number, as `json.dumps` renders a float (always with a decimal part). -/
def jsonNum (q : ℚ) : String :=
  let sign := if q < 0 then "-" else ""
  let ip := (⌊|q|⌋).toNat
  let fr := fracDigits 30 (|q| - (⌊|q|⌋ : ℚ))
  sign ++ String.mk (natDigitsRev ip).reverse ++ "." ++ (if fr.isEmpty then "0" else String.mk fr)

/-- A JSON value for a `PyVal`. -/
def jsonPyVal : PyVal → String
  | .str s => jsonStr s
  | .num q => jsonNum q
  | .none => "null"

/-- `json.dumps` of one chat message dict. -/
def jsonTurn (t : Turn) : String :=
  "\x7b\"role\": " ++ jsonStr t.role ++ ", \"content\": " ++ jsonStr t.content ++ "\x7d"

/-- `json.dumps` of a list of chat messages. -/
def jsonTurns (ts : List Turn) : String :=
  "[" ++ String.intercalate ", " (ts.map jsonTurn) ++ "]"

/-- `json.dumps` of one formatted passage dict. -/
def jsonPassage (p : Passage) : String :=
  "\x7b" ++ String.intercalate ", "
    (p.map (fun kv => jsonStr kv.1 ++ ": " ++ jsonPyVal kv.2)) ++ "\x7d"

/-- `json.dumps` of the retrieved chunks list. -/
def jsonPassages (ps : List Passage) : String :=
  "[" ++ String.intercalate ", " (ps.map jsonPassage) ++ "]"

/-- The refiner's system instructions (`_build_refine_prompt`). -/
def refineSystemText : String :=
  String.intercalate "\n"
    ["", "    You are a query refiner.", "    ",
     "    Given the recent chat history and a user input, produce a clear, focused question that preserves the user\x27s intent.",
     "    1. If the input is already a question, clean it up with the necessary context from the chat history if it\x27s relevant.",
     "    2. If the input is a problem statement or request for help, rewrite it as a question that directly asks how to solve or troubleshoot the issue (e.g., “How can I […]?”).",
     "    3. Preserve the original meaning and keywords; do not add new information.",
     "    ",
     "    Output ONLY the rewritten question, ending with a question mark. — no extra comments and no follow-up questions.",
     "    "]

/-- `_build_refine_prompt` (`utils/llm_utils.py`): the sectioned refinement
prompt. -/
def _build_refine_prompt (raw_question chat_history : String) : String :=
  String.intercalate "\n"
    ["[SYSTEM]", refineSystemText, "[/SYSTEM]",
     "[HISTORY]", chat_history, "[/HISTORY]",
     "[ORIGINAL_QUESTION]", raw_question, "[/ORIGINAL_QUESTION]"]

/-- `refine_question` (`utils/llm_utils.py`): skip when the session message
list has fewer than 2 entries; otherwise build the prompt from the last
`num_history` messages and call the completion backend, falling back to the
raw question (with an error notice) if that call raises. -/
def refine_question (complete : CompleteFn) (messages : List Turn)
    (raw_question model_name : String) (num_history : Nat)
    (temperature : ℚ) (max_tokens : Nat) : String × List Event :=
  if messages.length < 2 then (raw_question, [])
  else
    let hist := pySliceLast messages num_history
    let hist_json := jsonTurns hist
    let prompt := _build_refine_prompt raw_question hist_json
    let opts : CompleteOptions := { temperature := temperature, max_tokens := max_tokens }
    match complete model_name prompt opts with
    | .ok t => (pyStrip t, [.completeCall model_name prompt opts])
    | .error e =>
        (raw_question, [.completeCall model_name prompt opts,
                        .err ("Refine error: " ++ e.toMessage)])

/-- The synthesizer's system instructions (`_build_invoice_prompt`). -/
def invoiceSystemText : String :=
  String.intercalate "\n"
    ["", "    You are an invoice assistant.",
     "    Answer the user\x27s question using ONLY the data in the JSON context below. Be concise and factual.  ",
     "    Output must be valid Markdown.",
     "    ",
     "    When you need to return multiple discrete pieces of information, format it as a Markdown list:",
     "    - Always put a blank line before and after the list.",
     "    - Start each bullet with `- ` (dash + space).",
     "    ",
     "    Otherwise, respond in normal prose.",
     "    ",
     "    If you cannot answer from the context, say “I don\x27t know.”",
     "    "]

/-- `_build_invoice_prompt` (`utils/llm_utils.py`): the sectioned answer
prompt; the history section is included only when `chat_history` is truthy. -/
def _build_invoice_prompt (context_json question : String)
    (chat_history : Option String := Option.none) : String :=
  let parts := ["[SYSTEM]", invoiceSystemText, "[/SYSTEM]",
                "[CONTEXT]\n" ++ context_json ++ "\n[/CONTEXT]"]
  let parts :=
    match chat_history with
    | some h => if h.isEmpty then parts else parts ++ ["[HISTORY]\n" ++ h ++ "\n[/HISTORY]"]
    | Option.none => parts
  String.intercalate "\n" (parts ++ ["QUESTION:", question, "ANSWER:"])

/-- `history_json = json.dumps(chat_history) if chat_history else None`: an
absent or empty history list is falsy and serializes to `None`. -/
def historyJson : Option (List Turn) → Option String
  | some h => if h.isEmpty then Option.none else some (jsonTurns h)
  | Option.none => Option.none

/-- `get_invoice_answer` (`utils/llm_utils.py`): serialize the context and the
(truthy) history, call the completion backend, and return its text — or, if the
call raises, the error-prefixed string `"Error: ..."` as the answer text. -/
def get_invoice_answer (complete : CompleteFn) (question : String)
    (context_chunks : List Passage) (model_name : String) (max_tokens : Nat)
    (temperature : ℚ) (chat_history : Option (List Turn) := Option.none) :
    String × List Event :=
  let context_json := jsonPassages context_chunks
  let history_json := historyJson chat_history
  let prompt := _build_invoice_prompt context_json question history_json
  let options : CompleteOptions := { temperature := temperature, max_tokens := max_tokens }
  match complete model_name prompt options with
  | .ok t => (t, [.completeCall model_name prompt options])
  | .error e => ("Error: " ++ e.toMessage, [.completeCall model_name prompt options])

/-- The slice of Streamlit session state that `init_messages` and the
"Clear conversation" button touch: `messages` (absent before first init) and
the `clear_conversation` flag (absent until first pressed). -/
structure AppSession : Type where
  messages : Option (List Turn)
  clear_conversation : Option Bool
deriving DecidableEq, Repr

/-- `init_messages` (`streamlit_app.py`): if the reset flag is truthy, set the
message list to `[]` and clear the flag; then create an empty message list if
none exists yet. -/
def init_messages (s : AppSession) : AppSession :=
  let s :=
    if pyTruthy s.clear_conversation then
      { s with messages := some [], clear_conversation := some false }
    else s
  if s.messages.isNone then { s with messages := some [] } else s

/-- The "Clear conversation" sidebar button (`load_config`): pressing it sets
the reset flag, observed on the next `init_messages` run. -/
def pressClearConversation (s : AppSession) : AppSession :=
  { s with clear_conversation := some true }

/-- The configuration dict assembled by `load_config`. -/
structure Config : Type where
  selected_service : String
  num_retrieved_chunks : Nat
  num_chat_messages : Nat
  refine_temperature : ℚ
  refine_max_tokens : Nat
  summary_temperature : ℚ
  summary_max_tokens : Nat
deriving DecidableEq, Repr

/-- `MODEL` (`streamlit_app.py`). -/
def MODEL : String := "claude-3-5-sonnet"

/-- The session-state fields `main_chat_loop` reads and writes during a turn. -/
structure ChatState : Type where
  messages : List Turn
  last_context_json : Option String
deriving DecidableEq, Repr

/-- The observable outcome of one executed user turn: the session state when
the run ended (at the uncaught exception, if one was raised), the event log,
the exception (if any), the message list as the refiner saw it, and the
history slice handed to the synthesizer (`Option.none` if that call was never
reached). -/
structure TurnOutcome : Type where
  state : ChatState
  events : List Event
  raised : Option PyExn
  refinerMessages : List Turn
  synthHistArg : Option (List Turn)

/-- The argument bindings at the `query_cortex_search_service(...)` call in
`main_chat_loop`: query, service, limit and metadata are supplied;
`min_total_gross` and `max_total_gross` are not. -/
def mainChatLoopSearchArgs (rewritten_q : String) (config : Config)
    (metadata : List ServiceMeta) : SearchCallArgs :=
  { query := rewritten_q
    service := config.selected_service
    limit := config.num_retrieved_chunks
    metadata := metadata }

/-- One executed user turn of `main_chat_loop` (`streamlit_app.py`): append the
user message, refine, call the search gateway as the source does, then (if no
exception was raised) store the context JSON, synthesize the answer over the
last `num_chat_messages` messages, and append the assistant message.  An
uncaught exception ends the run; session-state mutations made before it
persist. -/
def mainChatLoopTurn (complete : CompleteFn) (search : SearchFn)
    (metadata : List ServiceMeta) (config : Config) (model : String)
    (st : ChatState) (user_q : String) : TurnOutcome :=
  let messages1 := st.messages ++ [{ role := "user", content := user_q }]
  let st1 : ChatState := { st with messages := messages1 }
  let refined := refine_question complete messages1 user_q model
    config.num_chat_messages config.refine_temperature config.refine_max_tokens
  let rewritten_q := refined.1
  match callQueryCortexSearchService search (mainChatLoopSearchArgs rewritten_q config metadata) with
  | (.error e, ev2) =>
      { state := st1, events := refined.2 ++ ev2, raised := some e,
        refinerMessages := messages1, synthHistArg := Option.none }
  | (.ok chunks, ev2) =>
      let st2 : ChatState := { st1 with last_context_json := some (jsonPassages chunks) }
      let histSlice := pySliceLast st2.messages config.num_chat_messages
      let ans := get_invoice_answer complete rewritten_q chunks model
        config.summary_max_tokens config.summary_temperature (some histSlice)
      let st3 : ChatState := { st2 with
        messages := st2.messages ++ [{ role := "assistant", content := ans.1 }] }
      { state := st3, events := refined.2 ++ ev2 ++ ans.2, raised := Option.none,
        refinerMessages := messages1, synthHistArg := some histSlice }

/-- A notice event (`st.warning` or `st.error`) — the user-visible reports. -/
def Event.isNotice : Event → Bool
  | .warn _ => true
  | .err _ => true
  | _ => false

/-- A completion-backend invocation event. -/
def Event.isCompleteCall : Event → Bool
  | .completeCall _ _ _ => true
  | _ => false

/-- A metadata catalog with one resolvable service, for concrete runs. -/
def demoMetadata : List ServiceMeta :=
  [{ name := "INVOICE_SEARCH", search_column := some "CHUNK" }]

/-- The configuration `load_config` assembles with its default control values
and `demoMetadata`. -/
def demoConfig : Config :=
  { selected_service := "INVOICE_SEARCH", num_retrieved_chunks := 3,
    num_chat_messages := 5, refine_temperature := 0, refine_max_tokens := 500,
    summary_temperature := 0, summary_max_tokens := 750 }

/-- A deterministic completion-backend stub. -/
def completeStub : CompleteFn := fun _ _ _ => .ok "Stub answer."

/-- A deterministic search-backend stub returning no records. -/
def searchStub : SearchFn := fun _ => .ok { results := [] }

/-- An always-failing completion backend, for failure-injection instances. -/
def failingComplete : CompleteFn := fun _ _ _ => .error (.backendError "backend unavailable")

/-- C2: for every conversation with fewer than 2 turns in the session message
list, `refine_question` returns the raw question unchanged and emits no events
at all — in particular it never invokes the completion backend. -/
theorem refine_question_short_history_identity (complete : CompleteFn)
    (messages : List Turn) (raw_question model_name : String) (num_history : Nat)
    (temperature : ℚ) (max_tokens : Nat) (h : messages.length < 2) :
    refine_question complete messages raw_question model_name num_history
      temperature max_tokens = (raw_question, []) := by
  simp [refine_question, h]

/-- C2 witness: on the very first turn (only the just-appended user message in
the session), refinement is the identity and the backend is not called. -/
theorem refine_question_short_history_identity_witness :
    refine_question failingComplete [{ role := "user", content := "how do I reset my password" }]
      "how do I reset my password" MODEL 5 0 500 = ("how do I reset my password", []) :=
  refine_question_short_history_identity failingComplete
    [{ role := "user", content := "how do I reset my password" }]
    "how do I reset my password" MODEL 5 0 500 (by decide)

/-- C4: a completion-backend exception never propagates out of either caller:
`refine_question` returns the original raw question, and `get_invoice_answer`
returns the error-prefixed string as the answer text. -/
theorem completion_failure_degrades_in_both_callers (complete : CompleteFn)
    (messages : List Turn) (raw_question model_name question : String)
    (num_history : Nat) (temperature atemp : ℚ) (max_tokens amax : Nat)
    (context_chunks : List Passage) (chat_history : Option (List Turn))
    (e₁ e₂ : PyExn)
    (h₁ : complete model_name
      (_build_refine_prompt raw_question (jsonTurns (pySliceLast messages num_history)))
      { temperature := temperature, max_tokens := max_tokens } = .error e₁)
    (h₂ : complete model_name
      (_build_invoice_prompt (jsonPassages context_chunks) question (historyJson chat_history))
      { temperature := atemp, max_tokens := amax } = .error e₂) :
    (refine_question complete messages raw_question model_name num_history
      temperature max_tokens).1 = raw_question ∧
    (get_invoice_answer complete question context_chunks model_name amax atemp
      chat_history).1 = "Error: " ++ e₂.toMessage := by
  constructor
  · unfold refine_question
    split
    · rfl
    · simp only [h₁]
  · unfold get_invoice_answer
    simp only [h₂]

/-- C4 witness: with an always-failing completion backend, refinement falls
back to the raw question and synthesis yields the inline error string. -/
theorem completion_failure_degrades_in_both_callers_witness :
    (refine_question failingComplete
      [{ role := "user", content := "a" }, { role := "assistant", content := "b" }]
      "my vpn is down" MODEL 5 0 500).1 = "my vpn is down" ∧
    (get_invoice_answer failingComplete "my vpn is down" [] MODEL 750 0
      Option.none).1 = "Error: " ++ (PyExn.backendError "backend unavailable").toMessage :=
  completion_failure_degrades_in_both_callers failingComplete
    [{ role := "user", content := "a" }, { role := "assistant", content := "b" }]
    "my vpn is down" MODEL "my vpn is down" 5 0 0 500 750 [] Option.none
    (.backendError "backend unavailable") (.backendError "backend unavailable") rfl rfl

/-- C8: observing a truthy reset signal on a conversation with N>0 turns makes
the message list exactly empty in one step, clears the flag, and a second
observation (the next render) changes nothing further. -/
theorem reset_clears_conversation_once (s : AppSession) (msgs : List Turn)
    (hm : s.messages = some msgs) (hn : msgs ≠ [])
    (hf : pyTruthy s.clear_conversation = true) :
    (init_messages s).messages = some [] ∧
    (init_messages s).clear_conversation = some false ∧
    init_messages (init_messages s) = init_messages s := by
  refine ⟨?_, ?_, ?_⟩ <;> simp [init_messages, hf]

/-- A one-turn session with the reset flag set, for the C8 witness. -/
def resetDemoSession : AppSession :=
  { messages := some [{ role := "user", content := "hi" }],
    clear_conversation := some true }

/-- C8 witness: a one-turn conversation with the reset flag set becomes
exactly empty, with the flag cleared and no re-trigger. -/
theorem reset_clears_conversation_once_witness :
    (init_messages resetDemoSession).messages = some [] ∧
    (init_messages resetDemoSession).clear_conversation = some false ∧
    init_messages (init_messages resetDemoSession) = init_messages resetDemoSession :=
  reset_clears_conversation_once resetDemoSession
    [{ role := "user", content := "hi" }] rfl (by decide) rfl

/-- C1 fails on the code: the orchestrator's call to
`query_cortex_search_service` supplies query, service, limit and metadata but
not `min_total_gross`/`max_total_gross`, which the function requires, so the
call raises `TypeError` and the turn never reaches the rendered state.  This
theorem evaluates the turn at the failing input. -/
theorem orchestrator_search_call_raises_type_error :
    (mainChatLoopTurn completeStub searchStub demoMetadata demoConfig MODEL
      { messages := [], last_context_json := Option.none } "how do I reset my password").raised
      = some (.typeError ("query_cortex_search_service() missing 2 required positional arguments: "
          ++ "\x27min_total_gross\x27 and \x27max_total_gross\x27")) := by
  decide

/-- C7 fails on the code: a turn executed from an empty conversation appends
the user message and then dies at the search call's `TypeError`, so the
at-rest message list has odd length 1 — the user/assistant pair is never
completed. -/
theorem rest_state_odd_length_after_turn :
    (mainChatLoopTurn completeStub searchStub demoMetadata demoConfig MODEL
      { messages := [], last_context_json := Option.none } "my laptop will not boot").state.messages
      = [{ role := "user", content := "my laptop will not boot" }] ∧
    (mainChatLoopTurn completeStub searchStub demoMetadata demoConfig MODEL
      { messages := [], last_context_json := Option.none } "my laptop will not boot").state.messages.length % 2 = 1 := by
  constructor <;> decide

/-- C9 fails on the code: with fixed deterministic backend stubs, a turn
produces no answer text and appends no user/assistant pair at all — the run
raises at the search call, leaving only the user message. -/
theorem turn_appends_no_assistant_pair :
    ((mainChatLoopTurn completeStub searchStub demoMetadata demoConfig MODEL
      { messages := [], last_context_json := Option.none } "where is the printer queue").state.messages.filter
        (fun t => t.role == "assistant")).length = 0 ∧
    (mainChatLoopTurn completeStub searchStub demoMetadata demoConfig MODEL
      { messages := [], last_context_json := Option.none } "where is the printer queue").raised.isSome = true := by
  constructor <;> decide

/-- C10 on the code: the refiner does see the post-append message list (its
last element is the current user question, and so is the last element of the
last-N slice), but the synthesizer is never passed any history slice — the
search call before it raises `TypeError`. -/
theorem refiner_sees_appended_question_synthesizer_unreached :
    (mainChatLoopTurn completeStub searchStub demoMetadata demoConfig MODEL
      { messages := [{ role := "user", content := "my vpn will not connect" },
                     { role := "assistant", content := "Try restarting the client." }],
        last_context_json := Option.none } "what about error 619").refinerMessages
      = [{ role := "user", content := "my vpn will not connect" },
         { role := "assistant", content := "Try restarting the client." },
         { role := "user", content := "what about error 619" }] ∧
    (pySliceLast (mainChatLoopTurn completeStub searchStub demoMetadata demoConfig MODEL
      { messages := [{ role := "user", content := "my vpn will not connect" },
                     { role := "assistant", content := "Try restarting the client." }],
        last_context_json := Option.none } "what about error 619").refinerMessages
      demoConfig.num_chat_messages).getLast?
      = some { role := "user", content := "what about error 619" } ∧
    (mainChatLoopTurn completeStub searchStub demoMetadata demoConfig MODEL
      { messages := [{ role := "user", content := "my vpn will not connect" },
                     { role := "assistant", content := "Try restarting the client." }],
        last_context_json := Option.none } "what about error 619").synthHistArg
      = Option.none := by
  refine ⟨?_, ?_, ?_⟩ <;> decide

/-- C3: whenever the service is unspecified (empty), unresolvable in the
metadata catalog, resolvable but with no search column, or the backend search
call raises, the gateway returns the empty passage list together with a
user-visible notice, and it does not raise to its caller. -/
theorem gateway_degrades_without_raising (search : SearchFn)
    (query service : String) (limit : Nat) (metadata : List ServiceMeta)
    (mn mx : ℚ)
    (h : service.isEmpty = true
       ∨ metadata.find? (fun m => m.name == service) = Option.none
       ∨ (∃ m, metadata.find? (fun m2 => m2.name == service) = some m
             ∧ pyFalsyStrOpt m.search_column = true)
       ∨ (∃ m e, metadata.find? (fun m2 => m2.name == service) = some m
             ∧ search (buildSearchRequest query (m.search_column.getD "") limit mn mx)
                 = .error e)) :
    (query_cortex_search_service search query service limit metadata mn mx).1 = .ok [] ∧
    (query_cortex_search_service search query service limit metadata mn mx).2.any
      Event.isNotice = true := by
  by_cases hs : service.isEmpty
  · constructor <;> simp [query_cortex_search_service, hs, Event.isNotice]
  · rcases h with h | h | ⟨m, hm, hf⟩ | ⟨m, e, hm, he⟩
    · exact absurd h hs
    · constructor <;> simp [query_cortex_search_service, hs, h, Event.isNotice]
    · constructor <;> simp [query_cortex_search_service, hs, hm, hf, Event.isNotice]
    · by_cases hf : pyFalsyStrOpt m.search_column
      · constructor <;> simp [query_cortex_search_service, hs, hm, hf, Event.isNotice]
      · constructor <;> simp [query_cortex_search_service, hs, hm, hf, he, Event.isNotice]

/-- C3 witness: an unspecified (empty) service name yields the empty sequence
and a warning notice without raising. -/
theorem gateway_degrades_without_raising_witness :
    (query_cortex_search_service searchStub "total for invoice 1" "" 3 demoMetadata 0 100).1
      = .ok [] ∧
    (query_cortex_search_service searchStub "total for invoice 1" "" 3 demoMetadata 0 100).2.any
      Event.isNotice = true :=
  gateway_degrades_without_raising searchStub "total for invoice 1" "" 3 demoMetadata 0 100
    (Or.inl (by decide))

/-- A backend stub whose single record lacks the SELLER_NAME_VALUE field (and
others), for the C5 counterexample. -/
def missingFieldSearch : SearchFn := fun _ =>
  .ok { results := [[("FILE_NAAME_TYPO_GUARD", PyVal.none),
                     ("FILE_NAME", PyVal.str "invoice_1.pdf"),
                     ("CHUNK", PyVal.str "Invoice 1 total 1,000.00")]] }

/-- C5 counterexample: on a valid service and limit, a backend record missing
the SELLER_NAME_VALUE field makes the gateway raise `KeyError` — it does not
map the missing field to a placeholder value. -/
theorem gateway_missing_field_raises_key_error :
    (query_cortex_search_service missingFieldSearch "total for invoice 1"
      "INVOICE_SEARCH" 3 demoMetadata 0 1000000).1
      = .error (.keyError "SELLER_NAME_VALUE") := by
  rfl

/-- Helper: a `mapM` over `Except` succeeds elementwise, preserving length and
any elementwise property. -/
theorem list_mapM_except_ok {α β : Type} (P : β → Prop) (f : α → Except PyExn β)
    (l : List α) (h : ∀ x ∈ l, ∃ y, f x = .ok y ∧ P y) :
    ∃ ys, l.mapM f = .ok ys ∧ ys.length = l.length ∧ ∀ y ∈ ys, P y := by
  induction l with
  | nil => exact ⟨[], by simp [List.mapM_nil]; rfl, rfl, by simp⟩
  | cons a l ih =>
      obtain ⟨y, hy, hPy⟩ := h a (by simp)
      obtain ⟨ys, hys, hlen, hP⟩ := ih (fun x hx => h x (by simp [hx]))
      refine ⟨y :: ys, ?_, by simp [hlen], ?_⟩
      · rw [List.mapM_cons, hy, hys]; rfl
      · intro z hz
        rcases List.mem_cons.mp hz with hz | hz
        · exact hz ▸ hPy
        · exact hP z hz

/-- Helper: when a record contains every projected field, the comprehension
body yields a passage whose keys are exactly the six configured attribute
names, in order. -/
theorem formatRec_keys (col : String) (rec : SearchRecord)
    (h : ∀ k ∈ ["FILE_NAME", col, "SELLER_NAME_VALUE", "CLIENT_NAME_VALUE",
                "TOTAL_GROSS_WORTH_VALUE", "ISSUE_DATE_VALUE"],
          (rec.find? (fun kv => kv.1 == k)).isSome = true) :
    ∃ p, formatRec col rec = .ok p ∧
      p.map Prod.fst = ["file", "chunk", "seller", "client", "total_gross", "issue_date"] := by
  obtain ⟨kv1, h1⟩ := Option.isSome_iff_exists.mp (h "FILE_NAME" (by simp))
  obtain ⟨kv2, h2⟩ := Option.isSome_iff_exists.mp (h col (by simp))
  obtain ⟨kv3, h3⟩ := Option.isSome_iff_exists.mp (h "SELLER_NAME_VALUE" (by simp))
  obtain ⟨kv4, h4⟩ := Option.isSome_iff_exists.mp (h "CLIENT_NAME_VALUE" (by simp))
  obtain ⟨kv5, h5⟩ := Option.isSome_iff_exists.mp (h "TOTAL_GROSS_WORTH_VALUE" (by simp))
  obtain ⟨kv6, h6⟩ := Option.isSome_iff_exists.mp (h "ISSUE_DATE_VALUE" (by simp))
  refine ⟨[("file", kv1.2), ("chunk", kv2.2), ("seller", kv3.2), ("client", kv4.2),
           ("total_gross", _fmt_currency kv5.2), ("issue_date", kv6.2)], ?_, rfl⟩
  simp only [formatRec, pyGet, h1, h2, h3, h4, h5, h6]
  rfl

/-- C5 as amended: for a resolvable service with a known search column and a
backend response honoring the limit whose records carry every projected field,
the gateway returns at most `limit` passages, each containing exactly the six
configured attribute keys; but (per the counterexample) a field missing from a
backend record raises `KeyError` rather than mapping to a placeholder. -/
theorem gateway_passages_bounded_with_all_keys (search : SearchFn)
    (query service : String) (limit : Nat) (metadata : List ServiceMeta)
    (mn mx : ℚ) (m : ServiceMeta) (resp : SearchResponse)
    (hs : service.isEmpty = false)
    (hm : metadata.find? (fun m2 => m2.name == service) = some m)
    (hcol : pyFalsyStrOpt m.search_column = false)
    (hresp : search (buildSearchRequest query (m.search_column.getD "") limit mn mx)
      = .ok resp)
    (hlen : resp.results.length ≤ limit)
    (hkeys : ∀ rec ∈ resp.results,
      ∀ k ∈ ["FILE_NAME", m.search_column.getD "", "SELLER_NAME_VALUE",
             "CLIENT_NAME_VALUE", "TOTAL_GROSS_WORTH_VALUE", "ISSUE_DATE_VALUE"],
        (rec.find? (fun kv => kv.1 == k)).isSome = true) :
    ∃ ps, (query_cortex_search_service search query service limit metadata mn mx).1
        = .ok ps ∧
      ps.length ≤ limit ∧
      ∀ p ∈ ps, p.map Prod.fst
        = ["file", "chunk", "seller", "client", "total_gross", "issue_date"] := by
  obtain ⟨ps, hps, hpl, hpk⟩ :=
    list_mapM_except_ok
      (fun p => p.map Prod.fst
        = ["file", "chunk", "seller", "client", "total_gross", "issue_date"])
      (formatRec (m.search_column.getD "")) resp.results
      (fun rec hrec => formatRec_keys (m.search_column.getD "") rec (hkeys rec hrec))
  refine ⟨ps, ?_, by omega, hpk⟩
  unfold query_cortex_search_service
  rw [if_neg (by simp [hs])]
  simp only [hm, hcol, hresp, Bool.false_eq_true, if_false]
  exact hps

/-- C5 amended-claim witness: one complete backend record yields one passage
with exactly the six keys. -/
theorem gateway_passages_bounded_with_all_keys_witness :
    ∃ ps, (query_cortex_search_service
        (fun _ => .ok { results := [[("CHUNK", PyVal.str "Invoice 1 total 1,000.00"),
                                     ("FILE_NAME", PyVal.str "invoice_1.pdf"),
                                     ("SELLER_NAME_VALUE", PyVal.str "Acme"),
                                     ("CLIENT_NAME_VALUE", PyVal.str "Globex"),
                                     ("TOTAL_GROSS_WORTH_VALUE", PyVal.str "1000.00"),
                                     ("ISSUE_DATE_VALUE", PyVal.str "2024-01-31")]] })
        "total for invoice 1" "INVOICE_SEARCH" 3 demoMetadata 0 1000000).1 = .ok ps ∧
      ps.length ≤ 3 ∧
      ∀ p ∈ ps, p.map Prod.fst
        = ["file", "chunk", "seller", "client", "total_gross", "issue_date"] :=
  gateway_passages_bounded_with_all_keys
    (fun _ => .ok { results := [[("CHUNK", PyVal.str "Invoice 1 total 1,000.00"),
                                 ("FILE_NAME", PyVal.str "invoice_1.pdf"),
                                 ("SELLER_NAME_VALUE", PyVal.str "Acme"),
                                 ("CLIENT_NAME_VALUE", PyVal.str "Globex"),
                                 ("TOTAL_GROSS_WORTH_VALUE", PyVal.str "1000.00"),
                                 ("ISSUE_DATE_VALUE", PyVal.str "2024-01-31")]] })
    "total for invoice 1" "INVOICE_SEARCH" 3 demoMetadata 0 1000000
    { name := "INVOICE_SEARCH", search_column := some "CHUNK" }
    { results := [[("CHUNK", PyVal.str "Invoice 1 total 1,000.00"),
                   ("FILE_NAME", PyVal.str "invoice_1.pdf"),
                   ("SELLER_NAME_VALUE", PyVal.str "Acme"),
                   ("CLIENT_NAME_VALUE", PyVal.str "Globex"),
                   ("TOTAL_GROSS_WORTH_VALUE", PyVal.str "1000.00"),
                   ("ISSUE_DATE_VALUE", PyVal.str "2024-01-31")]] }
    rfl rfl rfl rfl (by decide) (by decide)

/-- Helper: every character `digitChar` produces is a decimal digit. -/
theorem digitChar_isDigit (d : Nat) : (digitChar d).isDigit = true := by
  match d with
  | 0 | 1 | 2 | 3 | 4 | 5 | 6 | 7 | 8 => rfl
  | n + 9 => rfl

/-- Helper: a number's digit list is never empty. -/
theorem natDigitsRev_ne_nil (n : Nat) : natDigitsRev n ≠ [] := by
  unfold natDigitsRev
  split <;> simp

/-- Helper: every character of a number's digit list is a decimal digit. -/
theorem natDigitsRev_digits (n : Nat) : ∀ c ∈ natDigitsRev n, c.isDigit = true := by
  induction n using Nat.strong_induction_on with
  | _ n ih =>
    unfold natDigitsRev
    split
    · intro c hc
      rw [List.mem_singleton] at hc
      exact hc ▸ digitChar_isDigit _
    · next h =>
      intro c hc
      rcases List.mem_cons.mp hc with hc | hc
      · exact hc ▸ digitChar_isDigit _
      · exact ih (n / 10) (Nat.div_lt_self (by omega) (by omega)) c hc

/-- Modelled from the spec's format description, for comparison with the
code's formatter: reading an integer part from its least significant
character, "thousands separators" means groups of exactly three digits
separated by commas, ending in a most-significant group of one to three
digits. -/
inductive specGroupedRev : List Char → Prop
  | short (ds : List Char) : ds ≠ [] → ds.length ≤ 3 →
      (∀ c ∈ ds, c.isDigit = true) → specGroupedRev ds
  | group (a b c : Char) (rest : List Char) : a.isDigit = true → b.isDigit = true →
      c.isDigit = true → specGroupedRev rest →
      specGroupedRev (a :: b :: c :: ',' :: rest)

/-- Modelled from the spec's format description: a string carries thousands
separators when its character list, read from the least significant end,
satisfies `specGroupedRev`. -/
def specThousandsGrouped (s : String) : Prop := specGroupedRev s.data.reverse

/-- Helper: `groupRev` of a nonempty all-digit list satisfies the spec's
thousands-separator shape. -/
theorem groupRev_spec (ds : List Char) : ds ≠ [] →
    (∀ c ∈ ds, c.isDigit = true) → specGroupedRev (groupRev ds) := by
  induction ds using groupRev.induct with
  | case1 ds hle =>
      intro hne hd
      rw [groupRev, if_pos hle]
      exact .short ds hne hle hd
  | case2 ds hgt ih =>
      intro hne hd
      rw [groupRev, if_neg hgt]
      rcases ds with _ | ⟨a, _ | ⟨b, _ | ⟨c, rest⟩⟩⟩
      · exact absurd rfl hne
      · simp at hgt
      · simp at hgt
      · show specGroupedRev (a :: b :: c :: ',' :: groupRev rest)
        refine specGroupedRev.group a b c (groupRev rest)
          (hd a (by simp)) (hd b (by simp)) (hd c (by simp)) ?_
        refine ih ?_ (fun x hx => hd x (List.mem_of_mem_drop hx))
        rintro rfl
        simp at hgt

/-- Helper: every formatted number decomposes as an optional minus sign, a
thousands-grouped integer part, a dot, and exactly two decimal digits. -/
theorem formatComma2_shape (x : ℚ) :
    ∃ sign mid frac, formatComma2 x = sign ++ mid ++ "." ++ frac ∧
      (sign = "" ∨ sign = "-") ∧ frac.length = 2 ∧
      (∀ c ∈ frac.data, c.isDigit = true) ∧ specThousandsGrouped mid := by
  refine ⟨if x < 0 then "-" else "",
    String.mk (groupRev (natDigitsRev ((roundHalfEven (|x| * 100)).toNat / 100))).reverse,
    String.mk [digitChar ((roundHalfEven (|x| * 100)).toNat % 100 / 10),
               digitChar ((roundHalfEven (|x| * 100)).toNat % 10)],
    rfl, ?_, rfl, ?_, ?_⟩
  · split
    · exact Or.inr rfl
    · exact Or.inl rfl
  · intro c hc
    have h2 : c = digitChar ((roundHalfEven (|x| * 100)).toNat % 100 / 10)
        ∨ c = digitChar ((roundHalfEven (|x| * 100)).toNat % 10) := by
      simpa using hc
    rcases h2 with rfl | rfl <;> exact digitChar_isDigit _
  · show specGroupedRev (groupRev _).reverse.reverse
    rw [List.reverse_reverse]
    exact groupRev_spec _ (natDigitsRev_ne_nil _) (natDigitsRev_digits _)

/-- Modelled from the spec's words, for comparison with the code's formatter:
the claimed output shape `"$"` followed by the value with an optional minus
sign, thousands separators in the integer part, a dot, and exactly two decimal
digits. -/
def specCurrencyShape (out : String) : Prop :=
  ∃ sign mid frac, out = "$" ++ (sign ++ mid ++ "." ++ frac) ∧
    (sign = "" ∨ sign = "-") ∧ frac.length = 2 ∧
    (∀ c ∈ frac.data, c.isDigit = true) ∧ specThousandsGrouped mid

/-- C6 counterexample: the input `"inf"` parses as a number under Python
`float()`, yet `_fmt_currency` returns `"$inf"`, which has no decimal point at
all — not the claimed two-decimal thousands-separated rendering. -/
theorem fmt_currency_inf_not_two_decimals :
    _fmt_currency (.str "inf") = .str "$inf" ∧ ¬ specCurrencyShape "$inf" := by
  constructor
  · rfl
  · rintro ⟨sign, mid, frac, heq, hsign, hlen, hdig, hmid⟩
    have hd : ('.' : Char) ∈ "$inf".data := by
      rw [heq]
      simp [String.data_append]
    exact absurd hd (by decide)

/-- C6 as amended: for every input parsing as a finite number, `_fmt_currency`
returns a dollar sign followed by the value rendered with an optional minus
sign, thousands separators and exactly two decimal digits; but an input
parsing as an infinity or NaN formats to `"$inf"`, `"$-inf"` or `"$nan"`,
which do not have that shape; and for every input that does not parse, the
input is returned unchanged (the `ValueError`/`TypeError` is caught, never
raised). -/
theorem fmt_currency_finite_shape_or_identity (v : PyVal) :
    (∀ q, pyFloat v = some (.finite q) →
      ∃ out, _fmt_currency v = .str out ∧ specCurrencyShape out) ∧
    (∀ neg, pyFloat v = some (.inf neg) →
      _fmt_currency v = .str ("$" ++ (if neg then "-inf" else "inf"))) ∧
    (pyFloat v = some .nan → _fmt_currency v = .str "$nan") ∧
    (pyFloat v = Option.none → _fmt_currency v = v) := by
  refine ⟨?_, ?_, ?_, ?_⟩
  · intro q hq
    obtain ⟨sign, mid, frac, heq, hsign, hlen, hdig, hmid⟩ := formatComma2_shape (q * 1)
    refine ⟨"$" ++ formatComma2 (q * 1), ?_, sign, mid, frac, by rw [heq],
      hsign, hlen, hdig, hmid⟩
    simp only [_fmt_currency, hq, PyFloat.mulRat, formatFloatComma2]
  · intro neg hq
    simp only [_fmt_currency, hq, PyFloat.mulRat]
    rw [if_neg one_ne_zero, if_neg (by norm_num : ¬(1 : ℚ) < 0)]
    cases neg <;> rfl
  · intro hq
    simp only [_fmt_currency, hq, PyFloat.mulRat]
    rfl
  · intro hq
    simp only [_fmt_currency, hq]

set_option exponentiation.threshold 1100 in
set_option maxRecDepth 8000 in
/-- C6 witness: exponent and underscore literals format to the grouped
two-decimal shape, infinities and NaN format to the dollar-prefixed special
strings, and a non-numeric input passes through unchanged. -/
theorem fmt_currency_finite_shape_or_identity_witness :
    (∃ out, _fmt_currency (.str "1e5") = .str out ∧ specCurrencyShape out) ∧
    (∃ out, _fmt_currency (.str "1_000") = .str out ∧ specCurrencyShape out) ∧
    _fmt_currency (.str "-inf") = .str "$-inf" ∧
    _fmt_currency (.str "nan") = .str "$nan" ∧
    _fmt_currency (.str "n/a") = .str "n/a" :=
  ⟨(fmt_currency_finite_shape_or_identity (.str "1e5")).1 (mkRat 100000 1) rfl,
   (fmt_currency_finite_shape_or_identity (.str "1_000")).1 (mkRat 1000 1) rfl,
   (fmt_currency_finite_shape_or_identity (.str "-inf")).2.1 true rfl,
   (fmt_currency_finite_shape_or_identity (.str "nan")).2.2.1 rfl,
   (fmt_currency_finite_shape_or_identity (.str "n/a")).2.2.2 rfl⟩
